import Mathlib

/-!
Shallow embedding of the esp32-smart-alarm firmware.

Two firmware sketches are embedded:
* `stable.ino` — standalone alarm clock: `checkAlarm` fires the buzzer when
  wall-clock time matches the configured alarm time and stops it after
  `ALARM_DURATION` seconds.
* `src/unnamed/part_000` — server-driven smart alarm: the device polls a
  backend (`pollServer`), rings when told to, and while ringing uploads
  camera frames (`sendScanToServer`); a response containing "STOP" silences
  the alarm (`stopAlarm`).

Hardware and network effects are made explicit: the state mutated by a
function becomes a structure passed in and returned, and the environment
(HTTP status code, response body, camera capture outcome, the `millis()`
clock, `getLocalTime` success) becomes an argument.  `unsigned long` is
32-bit on the ESP32, so `millis()` differences are taken modulo `2 ^ 32`.
-/

/-- 2 ^ 32, the modulus of the ESP32's `unsigned long`. -/
def MOD32 : Nat := 4294967296

/-- 32-bit unsigned subtraction `a - b`, as C computes it on `unsigned long`
operands already reduced modulo 2 ^ 32. -/
def sub32 (a b : Nat) : Nat := (a % MOD32 + (MOD32 - b % MOD32)) % MOD32

/-- Boolean test that the first list leads the second (shared head segment),
used to model Arduino `String.indexOf`. -/
def leadsWith : List Char → List Char → Bool
  | [], _ => true
  | _ :: _, [] => false
  | a :: as, b :: bs => a == b && leadsWith as bs

/-- Whether `needle` occurs contiguously inside `hay`. -/
def occursIn (hay needle : List Char) : Bool :=
  match hay with
  | [] => needle.isEmpty
  | _ :: t => leadsWith needle hay || occursIn t needle

/-- Models `hay.indexOf(needle) >= 0` on Arduino `String`. -/
def strContains (hay needle : String) : Bool :=
  occursIn hay.toList needle.toList

/-! ## Device model for `src/unnamed/part_000` -/

/-- `POLL_INTERVAL` (ms) from `part_000`. -/
def POLL_INTERVAL : Nat := 2000

/-- `SCAN_INTERVAL` (ms) from `part_000`. -/
def SCAN_INTERVAL : Nat := 800

/-- Mutable firmware state of `part_000`: the `alarmRinging` flag, the two
`millis()` timestamps, and whether tone output on `AUDIO_PIN` is commanded
(`tone` turns it on, `noTone` plus driving the pin LOW turns it off). -/
structure DeviceState where
  alarmRinging : Bool
  lastPollTime : Nat
  lastScanTime : Nat
  toneActive : Bool
  deriving Repr, DecidableEq

/-- `stopAlarm` (`part_000` lines 74-79): `noTone(AUDIO_PIN)`,
`digitalWrite(AUDIO_PIN, LOW)`, `alarmRinging = false`. -/
def stopAlarm (s : DeviceState) : DeviceState :=
  { s with toneActive := false, alarmRinging := false }

/-- `playAlarmTone` (`part_000` lines 65-72): drives the buzzer with the
alternating tone pattern; only the audio output changes. -/
def playAlarmTone (s : DeviceState) : DeviceState :=
  { s with toneActive := true }

/-- `pollServer` (`part_000` lines 84-109).  `httpCode` is what
`http.GET()` returned (negative on connection failure); `body` is the
response read only in the 200 branch. -/
def pollServer (s : DeviceState) (httpCode : Int) (body : String) : DeviceState :=
  if httpCode = 200 then
    let shouldRing := strContains body "ALARM_RINGING"
    if shouldRing && !s.alarmRinging then
      { s with alarmRinging := true }
    else if !shouldRing && s.alarmRinging then
      stopAlarm s
    else
      s
  else
    s

/-- Environment of one `sendScanToServer` call: either the camera capture
failed, or a frame was captured and the POST came back with the given
status code and body. -/
inductive ScanEnv where
  | captureFail : ScanEnv
  | captured : (httpCode : Int) → (body : String) → ScanEnv
  deriving Repr, DecidableEq

/-- `sendScanToServer` (`part_000` lines 111-140): on capture failure
return immediately; otherwise POST the frame, and only on HTTP 200 with a
body containing "STOP" call `stopAlarm`. -/
def sendScanToServer (s : DeviceState) (env : ScanEnv) : DeviceState :=
  match env with
  | ScanEnv.captureFail => s
  | ScanEnv.captured httpCode body =>
    if httpCode = 200 then
      if strContains body "STOP" then stopAlarm s else s
    else
      s

/-- Environment of one `loop()` iteration of `part_000`: the poll's HTTP
outcome and the scan's capture/HTTP outcome. -/
structure LoopEnv where
  pollCode : Int
  pollBody : String
  scan : ScanEnv
  deriving Repr

/-- Result of one `loop()` iteration: the new state, whether `pollServer`
was called, and whether `sendScanToServer` was called. -/
structure LoopResult where
  state : DeviceState
  polled : Bool
  scanned : Bool
  deriving Repr, DecidableEq

/-- The poll phase of `loop()` (`part_000` lines 319-322): call
`pollServer` and stamp `lastPollTime` when at least `POLL_INTERVAL` ms
elapsed since the previous poll. -/
def loopPollPhase (s : DeviceState) (now : Nat) (env : LoopEnv) : DeviceState × Bool :=
  if POLL_INTERVAL ≤ sub32 now s.lastPollTime then
    ({ pollServer s env.pollCode env.pollBody with lastPollTime := now }, true)
  else
    (s, false)

/-- One iteration of `loop()` (`part_000` lines 315-335): conditional poll,
then, if `alarmRinging`, play the tone and conditionally upload a frame. -/
def loopIter (s : DeviceState) (now : Nat) (env : LoopEnv) : LoopResult :=
  let p := loopPollPhase s now env
  let s1 := p.1
  if s1.alarmRinging then
    let s2 := playAlarmTone s1
    if SCAN_INTERVAL ≤ sub32 now s2.lastScanTime then
      ⟨{ sendScanToServer s2 env.scan with lastScanTime := now }, p.2, true⟩
    else
      ⟨s2, p.2, false⟩
  else
    ⟨s1, p.2, false⟩

/-! ## Device model for `stable.ino` -/

/-- `ALARM_HOUR` from `stable.ino`. -/
def ALARM_HOUR : Nat := 13

/-- `ALARM_MINUTE` from `stable.ino`. -/
def ALARM_MINUTE : Nat := 53

/-- `ALARM_DURATION` (seconds) from `stable.ino`. -/
def ALARM_DURATION : Nat := 60

/-- The fields of `struct tm` read by `checkAlarm`. -/
structure TimeInfo where
  hour : Nat
  minute : Nat
  second : Nat
  deriving Repr, DecidableEq

/-- Mutable alarm state of `stable.ino`: `alarmTriggered` and
`alarmStartTime` (a `millis()` stamp). -/
structure StableState where
  alarmTriggered : Bool
  alarmStartTime : Nat
  deriving Repr, DecidableEq

/-- Result of one `checkAlarm` call: the new state, whether
`playAlarmTone()` ran this tick, and whether the trigger branch fired this
tick. -/
structure CheckResult where
  state : StableState
  tonePlayed : Bool
  triggeredNow : Bool
  deriving Repr, DecidableEq

/-- `checkAlarm` (`stable.ino` lines 118-145).  `timeinfo` is `none` when
`getLocalTime` fails, `now` is `millis()`.  The trigger branch requires the
hour and minute to match AND the second to be exactly 0 AND the alarm not
to be already triggered; the sounding branch plays the tone while the
elapsed seconds stay below `ALARM_DURATION` and otherwise clears
`alarmTriggered`. -/
def checkAlarm (s : StableState) (timeinfo : Option TimeInfo) (now : Nat) : CheckResult :=
  match timeinfo with
  | none => ⟨s, false, false⟩
  | some t =>
    let fire := t.hour == ALARM_HOUR && t.minute == ALARM_MINUTE &&
      t.second == 0 && !s.alarmTriggered
    let s1 : StableState := if fire then ⟨true, now⟩ else s
    if s1.alarmTriggered then
      let elapsed := sub32 now s1.alarmStartTime / 1000
      if elapsed < ALARM_DURATION then
        ⟨s1, true, fire⟩
      else
        ⟨⟨false, s1.alarmStartTime⟩, false, fire⟩
    else
      ⟨s1, false, fire⟩

/-! ## Server session model (spec-modelled)

The repository's README lists a Python backend (`server/alarm_manager.py`,
the alarm state machine) that is not present under `src/`; only its device
client is.  The session machinery below is therefore modelled from the
spec, not translated from source. -/

/-- Modelled from the spec: the `AlarmSession` states of spec section 4.2.
The backend source (`server/alarm_manager.py`) is absent from `src/`. -/
inductive SessionState where
  | armed : SessionState
  | ringing : SessionState
  | awaitingDismissal : SessionState
  | dismissed : SessionState
  | expired : SessionState
  | cancelled : SessionState
  deriving Repr, DecidableEq

/-- Modelled from the spec: an `AlarmSession` restricted to the fields the
dismissal claims need — its state and the currently live challenge token. -/
structure Session where
  state : SessionState
  liveToken : Option String
  deriving Repr, DecidableEq

/-- Modelled from the spec: one verification attempt
(`ChallengeVerifier.verify` driving the compare-and-set of spec section
4.2).  Only when the session is `awaitingDismissal` with a live token equal
to the payload does the state move to `dismissed` (token consumed) and the
attempt win (`true`, the `stop` answer); every other attempt leaves the
session unchanged and loses (`false`, the `continue` answer). -/
def verifyScan (sess : Session) (payload : String) : Session × Bool :=
  match sess.state, sess.liveToken with
  | SessionState.awaitingDismissal, some tok =>
    if payload = tok then
      (⟨SessionState.dismissed, none⟩, true)
    else
      (sess, false)
  | _, _ => (sess, false)

/-- Modelled from the spec: a batch of concurrent scan submissions.  Spec
section 5 makes session transitions linearizable, so N concurrent
submissions are an arbitrary sequential interleaving; `runScans` runs one
such interleaving and counts the winning attempts. -/
def runScans : Session → List String → Session × Nat
  | sess, [] => (sess, 0)
  | sess, p :: ps =>
    let r := verifyScan sess p
    let rest := runScans r.1 ps
    (rest.1, (if r.2 then 1 else 0) + rest.2)

/-! ## Helper lemmas -/

/-- A dismissed session absorbs every further scan batch with zero wins. -/
theorem runScans_dismissed (tok? : Option String) (ps : List String) :
    runScans ⟨SessionState.dismissed, tok?⟩ ps = (⟨SessionState.dismissed, tok?⟩, 0) := by
  induction ps with
  | nil => rfl
  | cons p ps ih => simp [runScans, verifyScan, ih]

/-! ## Claim theorems -/

/-- Claim C1 counterexample: with the alarm not yet triggered, a tick that
observes the configured hour and minute (13:53) at second 30 does not fire
the alarm — `checkAlarm` requires the second to be exactly 0, so there is
no tolerance window around the configured time. -/
theorem checkAlarm_minute_match_second30_does_not_fire :
    (checkAlarm ⟨false, 0⟩ (some ⟨13, 53, 30⟩) 5000).triggeredNow = false ∧
    (checkAlarm ⟨false, 0⟩ (some ⟨13, 53, 30⟩) 5000).state.alarmTriggered = false := by
  decide

/-- Claim C1 (amended): a tick fires the alarm exactly when the observed
hour equals `ALARM_HOUR`, the observed minute equals `ALARM_MINUTE`, the
observed second is exactly 0, and the alarm is not already triggered; at
any other second of the configured minute the tick does not fire. -/
theorem checkAlarm_trigger_characterization (s : StableState) (t : TimeInfo) (now : Nat) :
    (checkAlarm s (some t) now).triggeredNow =
      (t.hour == ALARM_HOUR && t.minute == ALARM_MINUTE && t.second == 0 &&
        !s.alarmTriggered) := by
  unfold checkAlarm
  dsimp only
  repeat' split
  all_goals rfl

/-- Claim C2: on a scan whose POST returns HTTP 200 with a body containing
"STOP", the device stops ringing and silences the buzzer; on a 200 body
without "STOP", on a non-200 outcome, and on camera-capture failure the
device state is left unchanged. -/
theorem sendScan_response_cases (s : DeviceState) (code : Int) (body : String) :
    (strContains body "STOP" = true →
      sendScanToServer s (ScanEnv.captured 200 body) = stopAlarm s ∧
      (sendScanToServer s (ScanEnv.captured 200 body)).alarmRinging = false ∧
      (sendScanToServer s (ScanEnv.captured 200 body)).toneActive = false) ∧
    (strContains body "STOP" = false →
      sendScanToServer s (ScanEnv.captured 200 body) = s) ∧
    (code ≠ 200 → sendScanToServer s (ScanEnv.captured code body) = s) ∧
    sendScanToServer s ScanEnv.captureFail = s := by
  refine ⟨fun h => ?_, fun h => ?_, fun h => ?_, rfl⟩
  · simp [sendScanToServer, h, stopAlarm]
  · simp [sendScanToServer, h]
  · simp [sendScanToServer, h]

/-- Witness for C2 at concrete inputs: a ringing device with active tone,
scans answered by 200 "STOP", 200 "GO" and 500 "STOP". -/
theorem sendScan_response_cases_witness :
    (sendScanToServer ⟨true, 0, 0, true⟩ (ScanEnv.captured 200 "STOP")).alarmRinging = false ∧
    sendScanToServer ⟨true, 0, 0, true⟩ (ScanEnv.captured 200 "GO") = ⟨true, 0, 0, true⟩ ∧
    sendScanToServer ⟨true, 0, 0, true⟩ (ScanEnv.captured 500 "STOP") = ⟨true, 0, 0, true⟩ :=
  ⟨((sendScan_response_cases ⟨true, 0, 0, true⟩ 200 "STOP").1 (by decide)).2.1,
   (sendScan_response_cases ⟨true, 0, 0, true⟩ 200 "GO").2.1 (by decide),
   (sendScan_response_cases ⟨true, 0, 0, true⟩ 500 "STOP").2.2.1 (by decide)⟩

/-- Claim C3: after a successful poll (HTTP 200) the device's ringing flag
equals whether the response body indicates ringing (contains
"ALARM_RINGING"): a ringing response starts a silent device and a
non-ringing response stops a ringing one. -/
theorem pollServer_200_matches_server (s : DeviceState) (body : String) :
    (pollServer s 200 body).alarmRinging = strContains body "ALARM_RINGING" := by
  unfold pollServer
  cases h : strContains body "ALARM_RINGING" <;> cases hr : s.alarmRinging <;>
    simp [h, hr, stopAlarm]

/-- Claim C4: once the elapsed seconds since triggering reach
`ALARM_DURATION`, the evaluation tick clears `alarmTriggered` and does not
play the tone, so a triggered alarm never rings past the configured
duration. -/
theorem checkAlarm_duration_cutoff (s : StableState) (t : TimeInfo) (now : Nat)
    (h : s.alarmTriggered = true)
    (hd : ALARM_DURATION ≤ sub32 now s.alarmStartTime / 1000) :
    (checkAlarm s (some t) now).state.alarmTriggered = false ∧
    (checkAlarm s (some t) now).tonePlayed = false := by
  unfold checkAlarm
  dsimp only
  simp [h, Nat.not_lt.mpr hd]

/-- Witness for C4: an alarm triggered at `millis() = 0`, evaluated at
`millis() = 60000` (elapsed 60 s = `ALARM_DURATION`), stops. -/
theorem checkAlarm_duration_cutoff_witness :
    (checkAlarm ⟨true, 0⟩ (some ⟨0, 0, 0⟩) 60000).state.alarmTriggered = false ∧
    (checkAlarm ⟨true, 0⟩ (some ⟨0, 0, 0⟩) 60000).tonePlayed = false :=
  checkAlarm_duration_cutoff ⟨true, 0⟩ ⟨0, 0, 0⟩ 60000 rfl (by decide)

/-- Claim C5 (spec-modelled): starting from a session awaiting dismissal
with live token `tok`, any linearized batch of concurrent scan submissions
all carrying the correct payload dismisses the session with exactly one
winning verification, and every verification attempt against the dismissed
session is a no-op returning `continue`. -/
theorem dismissed_exactly_once (tok : String) (ps : List String)
    (hps : ∀ p ∈ ps, p = tok) (hne : ps ≠ []) :
    (runScans ⟨SessionState.awaitingDismissal, some tok⟩ ps).2 = 1 ∧
    (runScans ⟨SessionState.awaitingDismissal, some tok⟩ ps).1 =
      ⟨SessionState.dismissed, none⟩ ∧
    ∀ q, verifyScan ⟨SessionState.dismissed, none⟩ q =
      (⟨SessionState.dismissed, none⟩, false) := by
  match ps with
  | [] => exact absurd rfl hne
  | p :: rest =>
    have hp : p = tok := hps p (List.mem_cons_self p rest)
    subst hp
    have hv : verifyScan ⟨SessionState.awaitingDismissal, some p⟩ p =
        (⟨SessionState.dismissed, none⟩, true) := by
      simp [verifyScan]
    refine ⟨?_, ?_, fun q => rfl⟩
    · simp [runScans, hv, runScans_dismissed]
    · simp [runScans, hv, runScans_dismissed]

/-- Witness for C5: two correct-payload submissions, one win. -/
theorem dismissed_exactly_once_witness :
    (runScans ⟨SessionState.awaitingDismissal, some "T"⟩ ["T", "T"]).2 = 1 ∧
    (runScans ⟨SessionState.awaitingDismissal, some "T"⟩ ["T", "T"]).1 =
      ⟨SessionState.dismissed, none⟩ ∧
    ∀ q, verifyScan ⟨SessionState.dismissed, none⟩ q =
      (⟨SessionState.dismissed, none⟩, false) :=
  dismissed_exactly_once "T" ["T", "T"] (by decide) (by decide)

/-- Claim C6: evaluating a tick while the alarm is already triggered never
fires the trigger branch again and never changes `alarmStartTime`. -/
theorem checkAlarm_already_triggered_no_retrigger (s : StableState) (t : TimeInfo) (now : Nat)
    (h : s.alarmTriggered = true) :
    (checkAlarm s (some t) now).triggeredNow = false ∧
    (checkAlarm s (some t) now).state.alarmStartTime = s.alarmStartTime := by
  unfold checkAlarm
  dsimp only
  simp [h]
  split <;> simp

/-- Witness for C6: a triggered alarm re-evaluated at the configured time
does not re-fire and keeps its start stamp. -/
theorem checkAlarm_already_triggered_no_retrigger_witness :
    (checkAlarm ⟨true, 5⟩ (some ⟨13, 53, 0⟩) 1000).triggeredNow = false ∧
    (checkAlarm ⟨true, 5⟩ (some ⟨13, 53, 0⟩) 1000).state.alarmStartTime = 5 :=
  checkAlarm_already_triggered_no_retrigger ⟨true, 5⟩ ⟨13, 53, 0⟩ 1000 rfl

/-- Claim C7: in every loop iteration the server is polled exactly when at
least `POLL_INTERVAL` ms elapsed since the last poll, independently of the
ringing flag; and a scan upload happens only when the device is ringing
after the poll phase — a non-ringing device never transmits a scan. -/
theorem loop_poll_and_scan_discipline (s : DeviceState) (now : Nat) (env : LoopEnv) :
    (loopIter s now env).polled = decide (POLL_INTERVAL ≤ sub32 now s.lastPollTime) ∧
    ((loopIter s now env).scanned = true → (loopPollPhase s now env).1.alarmRinging = true) ∧
    ((loopPollPhase s now env).1.alarmRinging = false → (loopIter s now env).scanned = false) := by
  have hp : (loopPollPhase s now env).2 = decide (POLL_INTERVAL ≤ sub32 now s.lastPollTime) := by
    unfold loopPollPhase
    split <;> simp [*]
  refine ⟨?_, ?_, ?_⟩
  · rw [← hp]
    unfold loopIter
    dsimp only
    repeat' split
    all_goals rfl
  · intro hs
    unfold loopIter at hs
    dsimp only at hs
    by_cases hr : (loopPollPhase s now env).1.alarmRinging = true
    · exact hr
    · simp [hr] at hs
  · intro hr
    unfold loopIter
    dsimp only
    simp [hr]

/-- Witness for C7: an idle device whose poll timer has not elapsed
neither polls nor scans. -/
theorem loop_poll_and_scan_discipline_witness :
    (loopIter ⟨false, 0, 0, false⟩ 0 ⟨-1, "", ScanEnv.captureFail⟩).scanned = false ∧
    (loopIter ⟨false, 0, 0, false⟩ 0 ⟨-1, "", ScanEnv.captureFail⟩).polled =
      decide (POLL_INTERVAL ≤ sub32 0 0) :=
  ⟨(loop_poll_and_scan_discipline ⟨false, 0, 0, false⟩ 0 ⟨-1, "", ScanEnv.captureFail⟩).2.2
      (by decide),
   (loop_poll_and_scan_discipline ⟨false, 0, 0, false⟩ 0 ⟨-1, "", ScanEnv.captureFail⟩).1⟩

/-- Claim C8: a poll whose HTTP request fails or returns a status other
than 200 leaves the whole device state unchanged, so a ringing device
keeps ringing while the server is unreachable. -/
theorem pollServer_failure_frame (s : DeviceState) (code : Int) (body : String)
    (h : code ≠ 200) : pollServer s code body = s := by
  simp [pollServer, h]

/-- Witness for C8: a ringing device polled with a failed request
(`http.GET()` returned -1) is unchanged. -/
theorem pollServer_failure_frame_witness :
    pollServer ⟨true, 7, 8, true⟩ (-1) "ALARM_RINGING" = ⟨true, 7, 8, true⟩ :=
  pollServer_failure_frame ⟨true, 7, 8, true⟩ (-1) "ALARM_RINGING" (by decide)

/-- Claim C9: when `getLocalTime` fails, `checkAlarm` returns immediately:
the alarm state is unchanged and the tick neither triggers, nor sounds,
nor stops the alarm. -/
theorem checkAlarm_no_time_frame (s : StableState) (now : Nat) :
    checkAlarm s none now = ⟨s, false, false⟩ := rfl

/-- Claim C10: `stopAlarm` is idempotent — a second stop yields the same
state as the first, with the ringing flag false and the audio output
silenced. -/
theorem stopAlarm_idempotent (s : DeviceState) :
    stopAlarm (stopAlarm s) = stopAlarm s ∧
    (stopAlarm s).alarmRinging = false ∧ (stopAlarm s).toneActive = false :=
  ⟨rfl, rfl, rfl⟩
